import Mathlib

/-!
A verification development for the MCQExam repository: the test-session
orchestration and timeline-accounting core (session state machine in
`src/pages/AdminDashboard.tsx`, timer and student-side answer/submission
logic in `src/pages/StudentDashboard.tsx`).

Modelling conventions:
* wall-clock instants are integers in milliseconds (`Date.getTime()`);
* `Math.floor(x / 1000)` on an integer number of milliseconds is
  `Int.fdiv x 1000` (floor division, faithful also for negative values);
* `Math.round(x / 1000)` on an integer number of milliseconds is
  `Int.fdiv (x + 500) 1000` (JavaScript rounds half toward positive
  infinity: `Math.round(y) = Math.floor(y + 0.5)`);
* nullable columns become `Option`, fallible database writes return the
  effect explicitly.
-/

/-- The `status` column of the singleton `test_sessions` row
(`src/types.ts`, `TestSession.status`). -/
inductive Status where
  | waiting
  | started
  | paused
  | finished
  deriving DecidableEq, Repr

/-- A row of the `tests` table, reduced to the fields the control panel
reads (`src/types.ts`, `Test`). -/
structure Test where
  id : String
  title : String
  deriving DecidableEq, Repr

/-- The singleton `test_sessions` row (`src/types.ts`, `TestSession`).
Timestamps are epoch milliseconds. -/
structure TestSession where
  test_id : Option String
  status : Status
  duration_minutes : Int
  start_time : Option Int
  test_title : Option String
  last_paused_at : Option Int
  total_paused_duration_seconds : Int
  deriving DecidableEq, Repr

/-- The bootstrap default session used when no row exists yet
(`src/pages/StudentDashboard.tsx` line 435). -/
def initialSession : TestSession :=
  { test_id := none
    status := .waiting
    duration_minutes := 60
    start_time := none
    test_title := some ""
    last_paused_at := none
    total_paused_duration_seconds := 0 }

/-- `netElapsedSeconds` of the running timer
(`src/pages/StudentDashboard.tsx` lines 39-40, identically
`src/pages/AdminDashboard.tsx` lines 220-221):
`Math.floor((ref - start)/1000) - total_paused_duration_seconds`.
Returns `0` when no `start_time` is set. -/
def netElapsedSeconds (session : TestSession) (referenceTime : Int) : Int :=
  match session.start_time with
  | some startTime =>
      Int.fdiv (referenceTime - startTime) 1000 - session.total_paused_duration_seconds
  | none => 0

/-- `calculateTimeLeft` of the `Timer` component, shared formula of the
started branch and the paused/finished branch
(`src/pages/StudentDashboard.tsx` lines 36-43 and 57-65; the admin
`TestControlPanel` timer effect at `src/pages/AdminDashboard.tsx` lines
215-242 computes the same expressions). -/
def calculateTimeLeft (session : TestSession) (startTime referenceTime : Int) : Int :=
  let grossElapsedSeconds := Int.fdiv (referenceTime - startTime) 1000
  let netElapsed := grossElapsedSeconds - session.total_paused_duration_seconds
  let totalSeconds := session.duration_minutes * 60
  max 0 (totalSeconds - netElapsed)

/-- The value the `Timer` effect displays at wall-clock instant `now`
(`src/pages/StudentDashboard.tsx` lines 32-74): the started branch
recomputes from `now`; the paused/finished branch uses `last_paused_at`
when set, otherwise the current time; the waiting branch (or a missing
`start_time`) shows the full duration. -/
def timerTimeLeft (session : TestSession) (now : Int) : Int :=
  if session.status = .started then
    match session.start_time with
    | some startTime => calculateTimeLeft session startTime now
    | none => session.duration_minutes * 60
  else
    match session.start_time with
    | some startTime =>
        let endTime := match session.last_paused_at with
          | some pausedAt => pausedAt
          | none => now
        calculateTimeLeft session startTime endTime
    | none => session.duration_minutes * 60

/-- The spec's formula (spec.md section 4.1), written from the spec's words
for the refinement check of the timer:
`remainingSeconds = max(0, durationSeconds - (floor(now - startTime) -
pausedAccumulatedSeconds))`, time differences floored to whole seconds. -/
def spec_remainingSeconds (durationSeconds startTime pausedAccumulatedSeconds now : Int) : Int :=
  max 0 (durationSeconds - (Int.fdiv (now - startTime) 1000 - pausedAccumulatedSeconds))

/-- Outcome of `handleControlAction` (`src/pages/AdminDashboard.tsx`
lines 245-331): the reset branch delegates to the `reset_test_session`
RPC; the start branch aborts with an alert when no test is selected and
the session has none; every other path issues the single unconditional
write `update(updates).eq('id','active_session')`, whose applied row is
carried by `updated`. -/
inductive ControlOutcome where
  | resetRpc
  | validationAlert
  | updated (row : TestSession)
  deriving DecidableEq, Repr

/-- `handleControlAction` (`src/pages/AdminDashboard.tsx` lines 245-331).
`newStatus = waiting` is the reset branch (RPC call, modelled separately).
Otherwise an `updates` record is built — resume folds
`Math.round((now - last_paused_at)/1000)` into the accumulator, start
requires `selectedTestId || session.test_id`, pause stamps
`last_paused_at` — and applied by `update(...).eq('id','active_session')`,
an unconditional overwrite keyed only by the row id (no predicate on the
prior status).  `updates.test_id` is set only when `selectedTestId` is
non-null, and `updates.test_title` is dropped by the client when the
lookup in `tests` yields `undefined`, so those columns otherwise keep
their prior values. -/
def handleControlAction (session : TestSession) (newStatus : Status)
    (selectedTestId : Option String) (tests : List Test) (duration : Int)
    (now : Int) : ControlOutcome :=
  if newStatus = .waiting then
    .resetRpc
  else
    let previousStatus := session.status
    if newStatus = .started then
      if previousStatus = .paused then
        match session.last_paused_at with
        | some pausedAt =>
            let currentPauseDuration := Int.fdiv (now - pausedAt + 500) 1000
            .updated { session with
              status := newStatus
              total_paused_duration_seconds :=
                session.total_paused_duration_seconds + currentPauseDuration
              last_paused_at := none }
        | none => .updated { session with status := newStatus }
      else
        match selectedTestId <|> session.test_id with
        | none => .validationAlert
        | some testIdToStart =>
            let testTitle := (tests.find? (fun t => t.id == testIdToStart)).map (·.title)
            .updated { session with
              status := newStatus
              start_time := some now
              test_id := match selectedTestId with
                | some tid => some tid
                | none => session.test_id
              duration_minutes := duration
              test_title := match testTitle with
                | some ttl => some ttl
                | none => session.test_title
              total_paused_duration_seconds := 0
              last_paused_at := none }
    else if newStatus = .paused then
      .updated { session with status := newStatus, last_paused_at := some now }
    else
      .updated { session with status := newStatus }

/-- The session row after a control action, unchanged when the action did
not reach the database write. -/
def applyControl (session : TestSession) (newStatus : Status)
    (selectedTestId : Option String) (tests : List Test) (duration : Int)
    (now : Int) : TestSession :=
  match handleControlAction session newStatus selectedTestId tests duration now with
  | .updated row => row
  | _ => session

/-- Which control buttons are clickable in a given status
(`src/pages/AdminDashboard.tsx` lines 433-439: Start/Resume is disabled
while `started`, Pause unless `started`, Finish while `finished` or
`waiting`; Reset is always enabled). -/
def buttonEnabled (current : Status) (newStatus : Status) : Bool :=
  match newStatus with
  | .started => current != .started
  | .paused => current == .started
  | .finished => current != .finished && current != .waiting
  | .waiting => true

/-- A row of the `student_answers` table (`src/types.ts`,
`StudentAnswer`). -/
structure AnswerRow where
  session_id : String
  student_id : String
  question_id : String
  selected_option_index : Nat
  deriving DecidableEq, Repr

/-- A row of the `student_submissions` table: the columns written by
`handleFinalSubmit` (`src/pages/StudentDashboard.tsx` lines 569-572). -/
structure SubmissionRow where
  session_id : String
  student_id : String
  deriving DecidableEq, Repr

/-- The composite conflict target named at the `upsert` call site
(`src/pages/StudentDashboard.tsx` line 543:
`onConflict: 'session_id,student_id,question_id'`). -/
def answerKeyEq (a b : AnswerRow) : Bool :=
  a.session_id == b.session_id && a.student_id == b.student_id &&
    a.question_id == b.question_id

/-- The `upsert` primitive invoked by `handleSelectOption`
(`src/pages/StudentDashboard.tsx` lines 538-543): insert the row, or
replace the existing row with the same composite key. -/
def upsertAnswer (table : List AnswerRow) (row : AnswerRow) : List AnswerRow :=
  if table.any (answerKeyEq row) then
    table.map (fun r => if answerKeyEq row r then row else r)
  else
    table ++ [row]

/-- The student client's state touched by `handleSelectOption`: the local
`answers` map (a `Map<string, number>`) and the persisted
`student_answers` rows. -/
structure SelectState where
  answers : String → Option Nat
  table : List AnswerRow

/-- `handleSelectOption` (`src/pages/StudentDashboard.tsx` lines 533-545):
the local map is updated first (`newAnswers.set(...)`; `setAnswers`), then
the upsert is attempted; a database error is only logged, the local update
is never rolled back.  `dbError = true` models the write failing. -/
def handleSelectOption (st : SelectState) (studentId questionId : String)
    (optionIndex : Nat) (dbError : Bool) : SelectState :=
  let newAnswers := fun q => if q == questionId then some optionIndex else st.answers q
  { answers := newAnswers
    table :=
      if dbError then st.table
      else upsertAnswer st.table
        { session_id := "active_session"
          student_id := studentId
          question_id := questionId
          selected_option_index := optionIndex } }

/-- Modelled from the spec: the `student_submissions` table's primary key
on (session generation, student) lives in the SQL schema (`supabase.md`),
which is not under `src/`; per spec.md section 3, "insertion must be
rejected (not overwritten) if the key already exists".  `none` is the
conflict error returned to the `insert` call. -/
def insertSubmission (table : List SubmissionRow) (row : SubmissionRow) :
    Option (List SubmissionRow) :=
  if table.any (fun r => r.session_id == row.session_id && r.student_id == row.student_id) then
    none
  else
    some (table ++ [row])

/-- What the caller of `handleFinalSubmit` observes: the error branch
raises `alert('There was an error submitting your test: ...')` and
returns; the success branch sets `isSubmitted` so the UI shows the
report. -/
inductive SubmitResult where
  | errorAlert
  | submittedView
  deriving DecidableEq, Repr

/-- The student client's state touched by `handleFinalSubmit`. -/
structure SubmitState where
  table : List SubmissionRow
  isSubmitting : Bool
  isSubmitted : Bool
  deriving DecidableEq, Repr

/-- `handleFinalSubmit` (`src/pages/StudentDashboard.tsx` lines 561-598):
sets `isSubmitting = true`, inserts `{session_id: 'active_session',
student_id}` into `student_submissions`; on any error (a key conflict
included) alerts, resets `isSubmitting` and aborts; on success sets
`isSubmitted = true`. -/
def handleFinalSubmit (st : SubmitState) (studentId : String) :
    SubmitState × SubmitResult :=
  let st1 := { st with isSubmitting := true }
  match insertSubmission st1.table { session_id := "active_session", student_id := studentId } with
  | none => ({ st1 with isSubmitting := false }, .errorAlert)
  | some newTable => ({ st1 with table := newTable, isSubmitted := true }, .submittedView)

/-- The database state the reset routine acts on: the singleton session
row plus the answer and submission tables. -/
structure DB where
  session : TestSession
  answers : List AnswerRow
  submissions : List SubmissionRow
  deriving DecidableEq, Repr

/-- Modelled from the spec: the session-row half of the
`reset_test_session` stored routine, which is defined in the SQL script
`supabase.md` and not under `src/` (`src/pages/AdminDashboard.tsx` line
253 only invokes it).  Per spec.md section 4.2, Reset "clears
`activeTestId`, timestamps, accumulator, title back to defaults and
status to `waiting`". -/
def resetSessionFields (s : TestSession) : TestSession :=
  { s with
    test_id := none
    status := .waiting
    start_time := none
    test_title := some ""
    last_paused_at := none
    total_paused_duration_seconds := 0 }

/-- Modelled from the spec: the `reset_test_session` stored routine
(`supabase.md`, not under `src/`), invoked by the reset branch of
`handleControlAction`.  Per spec.md section 4.2 it atomically (i) resets
the session row's fields and (ii) deletes all Answer and Submission rows
of the current generation — here, a single pure step on the whole
database state. -/
def reset_test_session (db : DB) : DB :=
  { session := resetSessionFields db.session
    answers := []
    submissions := [] }

/-- Session rows reachable from the bootstrap state by the operations the
admin panel can actually issue: a control action whose button is enabled
for the current status and whose write was applied, or a reset. -/
inductive Reach : TestSession → Prop where
  | init : Reach initialSession
  | ctrl (s s' : TestSession) (newStatus : Status) (selectedTestId : Option String)
      (tests : List Test) (duration now : Int) :
      Reach s →
      buttonEnabled s.status newStatus = true →
      handleControlAction s newStatus selectedTestId tests duration now = .updated s' →
      Reach s'
  | reset (s : TestSession) : Reach s → Reach (resetSessionFields s)

/-! ## Concrete scenario states, built through the control operations -/

/-- A one-test catalog for the concrete scenarios. -/
def demoTests : List Test := [{ id := "t1", title := "Demo" }]

/-- Start pressed at T0 = 0 ms with test `t1` and a 1-minute duration
(durationSeconds = 60). -/
def startedAt0 : TestSession :=
  applyControl initialSession .started (some "t1") demoTests 1 0

/-- Pause pressed at T0 + 10 s. -/
def pausedAt10 : TestSession :=
  applyControl startedAt0 .paused none demoTests 1 10000

/-- Resume pressed at T0 + 40 s (a 30 s pause). -/
def resumedAt40 : TestSession :=
  applyControl pausedAt10 .started none demoTests 1 40000

/-- Finish pressed while the session was running. -/
def finishedFromStarted : TestSession :=
  applyControl startedAt0 .finished none demoTests 1 20000

/-- Finish pressed while the session was paused. -/
def finishedFromPaused : TestSession :=
  applyControl pausedAt10 .finished none demoTests 1 20000

/-! ## Claims -/

/-- C1: for a snapshot with status `started` and a non-null `startTime`,
the displayed remaining time equals the spec's
`max(0, durationSeconds - (floor(now - startTime) - pausedAccumulatedSeconds))`;
and in the concrete run Start at T0 with 60 s, Pause at T0+10 s, Resume at
T0+40 s, a query at T0+50 s yields `netElapsedSeconds = 20` and a
remaining time of `40`. -/
theorem c1_remaining_time_formula :
    (∀ (s : TestSession) (startTime now : Int),
        s.status = .started → s.start_time = some startTime →
        timerTimeLeft s now =
          spec_remainingSeconds (s.duration_minutes * 60) startTime
            s.total_paused_duration_seconds now) ∧
    netElapsedSeconds resumedAt40 50000 = 20 ∧
    timerTimeLeft resumedAt40 50000 = 40 := by
  refine ⟨?_, by decide, by decide⟩
  intro s startTime now hst hstart
  simp [timerTimeLeft, hst, hstart, calculateTimeLeft, spec_remainingSeconds]

/-- C1 witness: the formula equivalence applied to the concrete
resumed-at-40 s snapshot queried at T0 + 50 s. -/
theorem c1_remaining_time_formula_witness :
    timerTimeLeft resumedAt40 50000 =
      spec_remainingSeconds (resumedAt40.duration_minutes * 60) 0
        resumedAt40.total_paused_duration_seconds 50000 :=
  c1_remaining_time_formula.1 resumedAt40 0 50000 (by decide) (by decide)

/-- C3 counterexample: Pause issued while the session status is `waiting`
is not rejected with a state-conflict error — the write is applied and
mutates the session row. -/
theorem c3_counterexample :
    handleControlAction initialSession .paused none [] 60 5000 =
      .updated { initialSession with status := .paused, last_paused_at := some 5000 } ∧
    { initialSession with status := .paused, last_paused_at := some 5000 } ≠ initialSession := by
  decide

/-- C3 amended: the write that applies a transition is an unconditional
update keyed only by the fixed row id, with no predicate on the expected
prior status: from any source state, Pause is applied (setting the status
and stamping `last_paused_at`) and Finish is applied (setting only the
status), never rejected with a state-conflict error. -/
theorem c3_amended_blind_update (s : TestSession) (selectedTestId : Option String)
    (tests : List Test) (duration now : Int) :
    handleControlAction s .paused selectedTestId tests duration now =
      .updated { s with status := .paused, last_paused_at := some now } ∧
    handleControlAction s .finished selectedTestId tests duration now =
      .updated { s with status := .finished } := by
  exact ⟨rfl, rfl⟩

/-- C10: `handleSelectOption` updates the local answers map before the
database upsert and never rolls it back: the map holds the chosen option
whatever the write's outcome, and when the write errors the persisted
table is left untouched, so the selection is visible locally without any
persisted Answer row. -/
theorem c10_local_update_survives_db_error (st : SelectState)
    (studentId questionId : String) (optionIndex : Nat) (dbError : Bool) :
    (handleSelectOption st studentId questionId optionIndex dbError).answers questionId
      = some optionIndex ∧
    (handleSelectOption st studentId questionId optionIndex true).table = st.table := by
  constructor
  · simp [handleSelectOption]
  · simp [handleSelectOption]

/-- The two racing finalize triggers for the same student, serialized by
the storage layer: the manual submit lands first on an empty table, the
auto-timeout's insert then hits the existing key. -/
def submitFirst : SubmitState × SubmitResult :=
  handleFinalSubmit { table := [], isSubmitting := false, isSubmitted := false } "s1"

/-- The second finalize trigger, after the first insert landed. -/
def submitSecond : SubmitState × SubmitResult :=
  handleFinalSubmit submitFirst.1 "s1"

/-- C2 counterexample: when two finalize triggers run for the same
student, exactly one Submission row results, but the caller whose insert
hits the existing key observes the error-alert path, not a 'submitted'
outcome — it does not treat the conflict as 'already submitted'. -/
theorem c2_counterexample :
    submitFirst.2 = .submittedView ∧
    submitSecond.2 = .errorAlert ∧
    submitSecond.2 ≠ .submittedView ∧
    submitSecond.1.table.length = 1 := by
  decide

/-- C2 amended: finalize is an insert-only write on the
(sessionGeneration, studentId) key that fails rather than overwrites, so
two triggers for the same student produce exactly one Submission row —
but only the first caller observes the 'submitted' outcome; the caller
that observes the key conflict surfaces it as an error alert, resets
`isSubmitting`, and aborts without transitioning to the report view. -/
theorem c2_amended_conflict_is_error (st : SubmitState) (studentId : String)
    (h : st.table.any
      (fun r => r.session_id == "active_session" && r.student_id == studentId) = false) :
    (handleFinalSubmit st studentId).2 = .submittedView ∧
    (handleFinalSubmit st studentId).1.table =
      st.table ++ [{ session_id := "active_session", student_id := studentId }] ∧
    (handleFinalSubmit (handleFinalSubmit st studentId).1 studentId).2 = .errorAlert ∧
    (handleFinalSubmit (handleFinalSubmit st studentId).1 studentId).1.table =
      (handleFinalSubmit st studentId).1.table ∧
    (handleFinalSubmit (handleFinalSubmit st studentId).1 studentId).1.isSubmitting = false := by
  simp only [handleFinalSubmit, insertSubmission, h, Bool.false_eq_true, if_false]
  simp [List.any_append, h]

/-- C2 amended witness: the two serialized triggers for student `s1` on
an empty submissions table. -/
theorem c2_amended_conflict_is_error_witness :
    (handleFinalSubmit { table := [], isSubmitting := false, isSubmitted := false } "s1").2
        = .submittedView ∧
    (handleFinalSubmit { table := [], isSubmitting := false, isSubmitted := false } "s1").1.table
        = ([] : List SubmissionRow) ++ [{ session_id := "active_session", student_id := "s1" }] ∧
    (handleFinalSubmit (handleFinalSubmit
        { table := [], isSubmitting := false, isSubmitted := false } "s1").1 "s1").2
        = .errorAlert ∧
    (handleFinalSubmit (handleFinalSubmit
        { table := [], isSubmitting := false, isSubmitted := false } "s1").1 "s1").1.table
        = (handleFinalSubmit
            { table := [], isSubmitting := false, isSubmitted := false } "s1").1.table ∧
    (handleFinalSubmit (handleFinalSubmit
        { table := [], isSubmitting := false, isSubmitted := false } "s1").1 "s1").1.isSubmitting
        = false :=
  c2_amended_conflict_is_error
    { table := [], isSubmitting := false, isSubmitted := false } "s1" (by decide)

/-- C4: Reset is a single atomic step that clears `activeTestId`,
`startTime`, `lastPausedAt`, `pausedAccumulatedSeconds` and the title back
to defaults, sets the status to `waiting`, and deletes every Answer and
Submission row of the generation; a subsequent Start therefore begins with
`pausedAccumulatedSeconds = 0` over empty Answer/Submission tables. -/
theorem c4_reset_then_start (db : DB) (tid : String) (tests : List Test)
    (duration now : Int) :
    (reset_test_session db).session.test_id = none ∧
    (reset_test_session db).session.status = .waiting ∧
    (reset_test_session db).session.start_time = none ∧
    (reset_test_session db).session.last_paused_at = none ∧
    (reset_test_session db).session.total_paused_duration_seconds = 0 ∧
    (reset_test_session db).session.test_title = some "" ∧
    (reset_test_session db).answers = [] ∧
    (reset_test_session db).submissions = [] ∧
    ∃ row,
      handleControlAction (reset_test_session db).session .started (some tid) tests
          duration now = .updated row ∧
      row.status = .started ∧ row.total_paused_duration_seconds = 0 := by
  refine ⟨rfl, rfl, rfl, rfl, rfl, rfl, rfl, rfl, ?_⟩
  simp only [reset_test_session, resetSessionFields, handleControlAction]
  exact ⟨_, rfl, rfl, rfl⟩

/-- `Math.floor(x/1000)` is monotone. -/
theorem fdiv1000_mono {a b : Int} (h : a ≤ b) :
    Int.fdiv a 1000 ≤ Int.fdiv b 1000 := by
  rw [Int.fdiv_eq_ediv _ (by norm_num), Int.fdiv_eq_ediv _ (by norm_num)]
  exact Int.ediv_le_ediv (by norm_num) h

/-- C6 counterexample: a snapshot produced by Finish pressed while the
session was running (so `last_paused_at` is null) has status `finished`,
yet the displayed remaining time still depends on the query instant — it
is not constant. -/
theorem c6_counterexample :
    finishedFromStarted.status = .finished ∧
    timerTimeLeft finishedFromStarted 10000 = 50 ∧
    timerTimeLeft finishedFromStarted 20000 = 40 ∧
    timerTimeLeft finishedFromStarted 10000 ≠ timerTimeLeft finishedFromStarted 20000 := by
  decide

/-- C6 amended: for a fixed snapshot the displayed remaining time is
monotonically non-increasing in the query instant while status is
`started`; it is constant while the status is not `started` and
`last_paused_at` is set (every reachable `paused` snapshot, and `finished`
snapshots frozen from `paused`); but a `finished` snapshot with null
`last_paused_at` (Finish pressed while running) is evaluated against the
wall clock, so it is only non-increasing, not constant. -/
theorem c6_amended_monotonicity :
    (∀ (s : TestSession) (startTime now now' : Int),
        s.status = .started → s.start_time = some startTime → now ≤ now' →
        timerTimeLeft s now' ≤ timerTimeLeft s now) ∧
    (∀ (s : TestSession) (pausedAt now now' : Int),
        s.status ≠ .started → s.last_paused_at = some pausedAt →
        timerTimeLeft s now = timerTimeLeft s now') ∧
    (∀ (s : TestSession) (startTime now now' : Int),
        s.status ≠ .started → s.start_time = some startTime →
        s.last_paused_at = none → now ≤ now' →
        timerTimeLeft s now' ≤ timerTimeLeft s now) := by
  refine ⟨?_, ?_, ?_⟩
  · intro s startTime now now' hst hstart h
    simp only [timerTimeLeft, hst, if_true, hstart, calculateTimeLeft]
    exact max_le_max (le_refl 0)
      (by have := fdiv1000_mono (sub_le_sub_right h startTime); omega)
  · intro s pausedAt now now' hst hlp
    simp [timerTimeLeft, hst, hlp]
  · intro s startTime now now' hst hstart hlp h
    simp only [timerTimeLeft, hst, if_false, hstart, hlp, calculateTimeLeft]
    exact max_le_max (le_refl 0)
      (by have := fdiv1000_mono (sub_le_sub_right h startTime); omega)

/-- C6 amended witness: the three clauses at concrete snapshots — the
running snapshot from T0, the pause-frozen finish, and the wall-clock
finish. -/
theorem c6_amended_monotonicity_witness :
    timerTimeLeft startedAt0 20000 ≤ timerTimeLeft startedAt0 10000 ∧
    timerTimeLeft finishedFromPaused 5000 = timerTimeLeft finishedFromPaused 999999 ∧
    timerTimeLeft finishedFromStarted 20000 ≤ timerTimeLeft finishedFromStarted 10000 :=
  ⟨c6_amended_monotonicity.1 startedAt0 0 10000 20000 (by decide) (by decide) (by decide),
   c6_amended_monotonicity.2.1 finishedFromPaused 10000 5000 999999 (by decide) (by decide),
   c6_amended_monotonicity.2.2 finishedFromStarted 0 10000 20000 (by decide) (by decide)
     (by decide) (by decide)⟩

/-- C7 counterexample: the state reached by Start, Pause, then Finish
(Finish pressed while paused) is reachable through the panel's operations
and has status `finished` with a non-null `last_paused_at` — the Finish
write carries only the status and never clears the pause timestamp. -/
theorem c7_counterexample :
    Reach finishedFromPaused ∧
    finishedFromPaused.status = .finished ∧
    finishedFromPaused.last_paused_at ≠ none := by
  refine ⟨?_, by decide, by decide⟩
  have h1 : Reach startedAt0 :=
    Reach.ctrl initialSession startedAt0 .started (some "t1") demoTests 1 0
      Reach.init (by decide) (by decide)
  have h2 : Reach pausedAt10 :=
    Reach.ctrl startedAt0 pausedAt10 .paused none demoTests 1 10000
      h1 (by decide) (by decide)
  exact Reach.ctrl pausedAt10 finishedFromPaused .finished none demoTests 1 20000
    h2 (by decide) (by decide)

/-- C7 amended: in every reachable state, `last_paused_at` is non-null
when the status is `paused`, and a non-null `last_paused_at` implies the
status is `paused` or `finished` — Finish preserves the frozen pause
timestamp instead of clearing it, so the 'iff paused' form fails. -/
theorem c7_amended_invariant (s : TestSession) (h : Reach s) :
    (s.status = .paused → s.last_paused_at ≠ none) ∧
    (s.last_paused_at ≠ none → s.status = .paused ∨ s.status = .finished) := by
  induction h with
  | init => simp [initialSession]
  | reset s _ _ => simp [resetSessionFields]
  | ctrl s s' newStatus selectedTestId tests duration now _ henabled hupd _ =>
    cases newStatus with
    | waiting => simp [handleControlAction] at hupd
    | paused =>
      simp only [handleControlAction, reduceCtorEq, if_false, if_true] at hupd
      cases hupd
      simp
    | finished =>
      simp only [handleControlAction, reduceCtorEq, if_false] at hupd
      cases hupd
      simp
    | started =>
      by_cases hp : s.status = .paused
      · cases hlp : s.last_paused_at with
        | none =>
          simp only [handleControlAction, reduceCtorEq, if_false, if_true, hp, hlp] at hupd
          cases hupd
          simp [hlp]
        | some pausedAt =>
          simp only [handleControlAction, reduceCtorEq, if_false, if_true, hp, hlp] at hupd
          cases hupd
          simp
      · cases hsel : (selectedTestId <|> s.test_id) with
        | none =>
          simp [handleControlAction, hp, hsel] at hupd
        | some tid =>
          simp only [handleControlAction, reduceCtorEq, if_false, if_true, hp, hsel] at hupd
          cases hupd
          simp

/-- C7 amended witness: the invariant at the bootstrap state. -/
theorem c7_amended_invariant_witness :
    (initialSession.status = .paused → initialSession.last_paused_at ≠ none) ∧
    (initialSession.last_paused_at ≠ none →
      initialSession.status = .paused ∨ initialSession.status = .finished) :=
  c7_amended_invariant initialSession Reach.init

/-- C9: Start from `waiting` or `finished` with no selected test and no
previously active test aborts with the validation alert and performs no
write; with an available test id it issues a write setting
`start_time := now`, the active test id, the duration, the looked-up
title, a zero pause accumulator, and a null `last_paused_at`. -/
theorem c9_start_validation_and_fields :
    (∀ (s : TestSession) (tests : List Test) (duration now : Int),
        (s.status = .waiting ∨ s.status = .finished) → s.test_id = none →
        handleControlAction s .started none tests duration now = .validationAlert) ∧
    (∀ (s : TestSession) (selectedTestId : Option String) (tests : List Test)
        (duration now : Int) (tid : String),
        (s.status = .waiting ∨ s.status = .finished) →
        (selectedTestId <|> s.test_id) = some tid →
        ∃ row,
          handleControlAction s .started selectedTestId tests duration now = .updated row ∧
          row.status = .started ∧
          row.start_time = some now ∧
          row.test_id = some tid ∧
          row.duration_minutes = duration ∧
          row.total_paused_duration_seconds = 0 ∧
          row.last_paused_at = none ∧
          (∀ t : Test, tests.find? (fun tt => tt.id == tid) = some t →
            row.test_title = some t.title)) := by
  constructor
  · intro s tests duration now hst htid
    have hp : s.status ≠ .paused := by rcases hst with h | h <;> simp [h]
    simp [handleControlAction, hp, htid]
  · intro s selectedTestId tests duration now tid hst hsel
    have hp : s.status ≠ .paused := by rcases hst with h | h <;> simp [h]
    simp only [handleControlAction, reduceCtorEq, if_false, if_true, hp, hsel]
    refine ⟨_, rfl, rfl, rfl, ?_, rfl, rfl, rfl, ?_⟩
    · cases hstid : selectedTestId with
      | some tid' =>
        simp only [hstid] at hsel
        simp only [Option.some_orElse, Option.some.injEq] at hsel
        simp [hstid, hsel]
      | none =>
        simp only [hstid] at hsel
        simp only [Option.none_orElse] at hsel
        simp [hstid, hsel]
    · intro t hfind
      simp [hfind]

/-- C9 witness: the rejection at the bootstrap state with nothing
selected, and the field-setting write for test `t1`. -/
theorem c9_start_validation_and_fields_witness :
    handleControlAction initialSession .started none [] 60 0 = .validationAlert ∧
    ∃ row,
      handleControlAction initialSession .started (some "t1") demoTests 5 1234 = .updated row ∧
      row.status = .started ∧
      row.start_time = some 1234 ∧
      row.test_id = some "t1" ∧
      row.duration_minutes = 5 ∧
      row.total_paused_duration_seconds = 0 ∧
      row.last_paused_at = none ∧
      (∀ t : Test, demoTests.find? (fun tt => tt.id == "t1") = some t →
        row.test_title = some t.title) :=
  ⟨c9_start_validation_and_fields.1 initialSession [] 60 0 (Or.inl (by decide)) (by decide),
   c9_start_validation_and_fields.2 initialSession (some "t1") demoTests 5 1234 "t1"
     (Or.inl (by decide)) (by decide)⟩

/-- The composite answer key of (sessionGeneration, studentId,
questionId), fixed to the singleton generation `active_session`, as a row
predicate. -/
def answerKey (studentId questionId : String) (r : AnswerRow) : Bool :=
  r.session_id == "active_session" && r.student_id == studentId &&
    r.question_id == questionId

theorem answerKeyEq_eq_answerKey (studentId questionId : String) (idx : Nat)
    (r : AnswerRow) :
    answerKeyEq
      { session_id := "active_session", student_id := studentId,
        question_id := questionId, selected_option_index := idx } r =
      answerKey studentId questionId r := by
  rw [Bool.eq_iff_iff]
  simp only [answerKeyEq, answerKey, Bool.and_eq_true, beq_iff_eq]
  constructor
  · rintro ⟨⟨h1, h2⟩, h3⟩
    exact ⟨⟨h1.symm, h2.symm⟩, h3.symm⟩
  · rintro ⟨⟨h1, h2⟩, h3⟩
    exact ⟨⟨h1.symm, h2.symm⟩, h3.symm⟩

theorem countP_congr_of_eq {α : Type} (l : List α) (p q : α → Bool)
    (h : ∀ x ∈ l, p x = q x) : l.countP p = l.countP q := by
  induction l with
  | nil => rfl
  | cons a l ih =>
    rw [List.countP_cons, List.countP_cons, h a (by simp),
      ih (fun x hx => h x (by simp [hx]))]

/-- After an upsert of a row whose key matches `p`, exactly one
`p`-matching row is present, provided the table held at most one. -/
theorem upsertAnswer_countP (table : List AnswerRow) (row : AnswerRow)
    (p : AnswerRow → Bool) (hrow : p row = true)
    (hpt : ∀ r, answerKeyEq row r = p r)
    (h : table.countP p ≤ 1) :
    (upsertAnswer table row).countP p = 1 := by
  unfold upsertAnswer
  by_cases hany : table.any (answerKeyEq row) = true
  · rw [if_pos hany]
    have hcnt : (table.map fun r => if answerKeyEq row r then row else r).countP p
        = table.countP p := by
      rw [List.countP_map]
      apply countP_congr_of_eq
      intro r _
      by_cases hk : answerKeyEq row r = true
      · simp only [Function.comp_apply, if_pos hk, hrow]
        rw [← hpt r]
        exact hk.symm
      · simp only [Function.comp_apply, if_neg hk]
    have hpos : 0 < table.countP p := by
      rw [List.countP_pos_iff]
      rcases List.any_eq_true.mp hany with ⟨r, hr, hk⟩
      exact ⟨r, hr, by rw [← hpt r]; exact hk⟩
    omega
  · rw [if_neg hany]
    rw [List.countP_append]
    have hzero : table.countP p = 0 := by
      rw [List.countP_eq_zero]
      intro r hr
      have := (List.any_eq_false.mp (by simpa using hany)) r hr
      rw [hpt r] at this
      simp [this]
    simp [hzero, List.countP_cons, hrow]

/-- After an upsert, every row matching the upserted row's key is that
row. -/
theorem upsertAnswer_key_rows (table : List AnswerRow) (row : AnswerRow)
    (p : AnswerRow → Bool) (hpt : ∀ r, answerKeyEq row r = p r) :
    ∀ r ∈ upsertAnswer table row, p r = true → r = row := by
  unfold upsertAnswer
  by_cases hany : table.any (answerKeyEq row) = true
  · simp only [hany, if_true]
    intro r hr hp
    rcases List.mem_map.mp hr with ⟨x, hx, rfl⟩
    by_cases hk : answerKeyEq row x = true
    · simp [hk]
    · rw [if_neg (by simpa using hk)] at hp ⊢
      rw [← hpt x] at hp
      exact absurd hp hk
  · simp only [hany, if_false]
    intro r hr hp
    rcases List.mem_append.mp hr with h | h
    · have := (List.any_eq_false.mp (by simpa using hany)) r h
      rw [hpt r] at this
      simp [hp] at this
    · simpa using h

/-- Upserting a row that is already the unique representative of its key
leaves the table unchanged. -/
theorem upsertAnswer_stable (table : List AnswerRow) (row : AnswerRow)
    (p : AnswerRow → Bool) (hpt : ∀ r, answerKeyEq row r = p r)
    (hall : ∀ r ∈ table, p r = true → r = row)
    (hany : table.any (answerKeyEq row) = true) :
    upsertAnswer table row = table := by
  unfold upsertAnswer
  rw [if_pos (by simpa using hany)]
  conv_rhs => rw [← List.map_id table]
  apply List.map_congr_left
  intro x hx
  by_cases hk : answerKeyEq row x = true
  · rw [if_pos (by simpa using hk), id]
    exact (hall x hx (by rw [← hpt x]; exact hk)).symm
  · rw [if_neg (by simpa using hk), id]

/-- C5: `recordAnswer` (the success path of `handleSelectOption`) is an
upsert on the composite key (sessionGeneration, studentId, questionId):
two calls with the same key leave exactly one Answer row for that key,
holding the second option index, and repeating a call with the same key
and value leaves the table unchanged — no duplicate row. -/
theorem c5_recordAnswer_upsert (st : SelectState) (studentId questionId : String)
    (idx1 idx2 : Nat) (_hne : idx1 ≠ idx2)
    (h : st.table.countP (answerKey studentId questionId) ≤ 1) :
    ((handleSelectOption (handleSelectOption st studentId questionId idx1 false)
        studentId questionId idx2 false).table.countP
          (answerKey studentId questionId) = 1) ∧
    (∀ r ∈ (handleSelectOption (handleSelectOption st studentId questionId idx1 false)
        studentId questionId idx2 false).table,
        answerKey studentId questionId r = true → r.selected_option_index = idx2) ∧
    ((handleSelectOption (handleSelectOption (handleSelectOption st studentId
        questionId idx1 false) studentId questionId idx2 false)
        studentId questionId idx2 false).table =
      (handleSelectOption (handleSelectOption st studentId questionId idx1 false)
        studentId questionId idx2 false).table) := by
  have htab : ∀ (st' : SelectState) (idx : Nat),
      (handleSelectOption st' studentId questionId idx false).table =
        upsertAnswer st'.table
          { session_id := "active_session", student_id := studentId,
            question_id := questionId, selected_option_index := idx } := by
    intro st' idx
    rfl
  have hrow : ∀ idx : Nat,
      answerKey studentId questionId
        { session_id := "active_session", student_id := studentId,
          question_id := questionId, selected_option_index := idx } = true := by
    intro idx
    simp [answerKey]
  have hcnt1 := upsertAnswer_countP st.table _ _ (hrow idx1)
    (answerKeyEq_eq_answerKey studentId questionId idx1) h
  have hcnt2 := upsertAnswer_countP _ _ _ (hrow idx2)
    (answerKeyEq_eq_answerKey studentId questionId idx2)
    (le_of_eq hcnt1)
  have hvals := upsertAnswer_key_rows
    (upsertAnswer st.table
      { session_id := "active_session", student_id := studentId,
        question_id := questionId, selected_option_index := idx1 })
    { session_id := "active_session", student_id := studentId,
      question_id := questionId, selected_option_index := idx2 }
    (answerKey studentId questionId)
    (answerKeyEq_eq_answerKey studentId questionId idx2)
  refine ⟨by rw [htab, htab]; exact hcnt2, ?_, ?_⟩
  · intro r hr hkey
    rw [htab, htab] at hr
    rw [hvals r hr hkey]
  · rw [htab, htab, htab]
    apply upsertAnswer_stable _ _ (answerKey studentId questionId)
      (answerKeyEq_eq_answerKey studentId questionId idx2) hvals
    rw [List.any_eq_true]
    have hpos : 0 < (upsertAnswer
        (upsertAnswer st.table
          { session_id := "active_session", student_id := studentId,
            question_id := questionId, selected_option_index := idx1 })
        { session_id := "active_session", student_id := studentId,
          question_id := questionId, selected_option_index := idx2 }).countP
          (answerKey studentId questionId) := by
      rw [hcnt2]
      omega
    rcases List.countP_pos_iff.mp hpos with ⟨r, hr, hk⟩
    exact ⟨r, hr, by rw [answerKeyEq_eq_answerKey studentId questionId idx2 r]; exact hk⟩

/-- C5 witness: two changed selections followed by a redundant retry on an
initially empty table. -/
theorem c5_recordAnswer_upsert_witness :
    (((handleSelectOption (handleSelectOption
          { answers := fun _ => none, table := [] } "s1" "q1" 0 false)
        "s1" "q1" 2 false).table.countP (answerKey "s1" "q1")) = 1) ∧
    (∀ r ∈ (handleSelectOption (handleSelectOption
          { answers := fun _ => none, table := [] } "s1" "q1" 0 false)
        "s1" "q1" 2 false).table,
        answerKey "s1" "q1" r = true → r.selected_option_index = 2) ∧
    ((handleSelectOption (handleSelectOption (handleSelectOption
          { answers := fun _ => none, table := [] } "s1" "q1" 0 false)
        "s1" "q1" 2 false) "s1" "q1" 2 false).table =
      (handleSelectOption (handleSelectOption
          { answers := fun _ => none, table := [] } "s1" "q1" 0 false)
        "s1" "q1" 2 false).table) :=
  c5_recordAnswer_upsert { answers := fun _ => none, table := [] } "s1" "q1" 0 2
    (by decide) (by decide)

/-- One Pause (at `pr.1`) followed by one Resume (at `pr.2`) issued
through the control panel. -/
def applyPauseResume (s : TestSession) (pr : Int × Int) : TestSession :=
  applyControl (applyControl s .paused none [] s.duration_minutes pr.1)
    .started none [] s.duration_minutes pr.2

/-- A run's Pause/Resume pairs applied in order. -/
def runPauseResume (s : TestSession) (prs : List (Int × Int)) : TestSession :=
  prs.foldl applyPauseResume s

/-- Milliseconds spent in `started` intervals for a run begun at
`startTime` with pause intervals `prs`, queried at `t`: the gross
wall-clock span minus every paused span. -/
def startedIntervalMs (startTime : Int) (prs : List (Int × Int)) (t : Int) : Int :=
  (t - startTime) - (prs.map (fun pr => pr.2 - pr.1)).sum

theorem applyPauseResume_eq (s : TestSession) (pr : Int × Int) :
    applyPauseResume s pr =
      { s with
        status := .started
        total_paused_duration_seconds := s.total_paused_duration_seconds +
          Int.fdiv (pr.2 - pr.1 + 500) 1000
        last_paused_at := none } := rfl

theorem runPauseResume_proj (prs : List (Int × Int)) (s : TestSession) :
    (runPauseResume s prs).start_time = s.start_time ∧
    (runPauseResume s prs).total_paused_duration_seconds =
      s.total_paused_duration_seconds +
        (prs.map (fun pr => Int.fdiv (pr.2 - pr.1 + 500) 1000)).sum := by
  induction prs generalizing s with
  | nil => simp [runPauseResume]
  | cons pr prs ih =>
    have hcons : runPauseResume s (pr :: prs) =
        runPauseResume (applyPauseResume s pr) prs := rfl
    rcases ih (applyPauseResume s pr) with ⟨ih1, ih2⟩
    rw [hcons]
    constructor
    · rw [ih1, applyPauseResume_eq]
    · rw [ih2, applyPauseResume_eq]
      simp [Int.add_assoc]

/-- `1000 * Math.floor(x/1000)` is within `[x - 999, x]`. -/
theorem fdiv1000_bounds (x : Int) :
    x - 999 ≤ 1000 * Int.fdiv x 1000 ∧ 1000 * Int.fdiv x 1000 ≤ x := by
  have h := Int.fdiv_add_fmod x 1000
  have h1 : 0 ≤ Int.fmod x 1000 := Int.fmod_nonneg' x (by norm_num)
  have h2 : Int.fmod x 1000 < 1000 := Int.fmod_lt_of_pos x (by norm_num)
  omega

/-- The accumulated `Math.round` pause durations, in milliseconds, stay
within `±500` ms per pause of the exact paused span. -/
theorem sum_round_bounds (prs : List (Int × Int)) :
    ((prs.map (fun pr => pr.2 - pr.1)).sum - 500 * prs.length ≤
      1000 * (prs.map (fun pr => Int.fdiv (pr.2 - pr.1 + 500) 1000)).sum) ∧
    (1000 * (prs.map (fun pr => Int.fdiv (pr.2 - pr.1 + 500) 1000)).sum ≤
      (prs.map (fun pr => pr.2 - pr.1)).sum + 500 * prs.length) := by
  induction prs with
  | nil => simp
  | cons pr prs ih =>
    have hb := fdiv1000_bounds (pr.2 - pr.1 + 500)
    simp only [List.map_cons, List.sum_cons, List.length_cons] at *
    push_cast at ih ⊢
    omega

/-- C8 counterexample: starting at T0 = 0 and pausing twice for exactly
1.5 s each (Pause at 10 s, Resume at 11.5 s; Pause at 21.499 s, Resume at
22.999 s), the accumulator holds `round(1.5) + round(1.5) = 4` s, so
immediately after the second Resume `elapsedNetSeconds = 22 - 4 = 18`
while the true started time is 19.999 s — an error of 1.999 s, outside
the claimed ±1 s tolerance. -/
theorem c8_counterexample :
    netElapsedSeconds
        (runPauseResume startedAt0 [(10000, 11500), (21499, 22999)]) 22999 = 18 ∧
    startedIntervalMs 0 [(10000, 11500), (21499, 22999)] 22999 = 19999 ∧
    ¬ (|1000 * netElapsedSeconds
          (runPauseResume startedAt0 [(10000, 11500), (21499, 22999)]) 22999 -
        startedIntervalMs 0 [(10000, 11500), (21499, 22999)] 22999| ≤ 1000) := by
  decide

/-- C8 amended: Resume adds `Math.round((now - lastPausedAt)/1000)` — the
rounded, not exact, pause duration — to `pausedAccumulatedSeconds` and
clears `lastPausedAt`; consequently, after `n` Pause/Resume pairs the
`elapsedNetSeconds` of the run matches the exact started-interval time
within `0.999 + 0.5·n` seconds (here in milliseconds:
`|1000·net - startedMs| ≤ 999 + 500·n`), the flat ±1 s tolerance failing
already for `n = 2`. -/
theorem c8_resume_accumulator_bound :
    (∀ (s : TestSession) (pausedAt : Int) (selectedTestId : Option String)
        (tests : List Test) (duration now : Int),
        s.status = .paused → s.last_paused_at = some pausedAt →
        handleControlAction s .started selectedTestId tests duration now =
          .updated { s with
            status := .started
            total_paused_duration_seconds := s.total_paused_duration_seconds +
              Int.fdiv (now - pausedAt + 500) 1000
            last_paused_at := none }) ∧
    (∀ (s : TestSession) (startTime : Int) (prs : List (Int × Int)) (t : Int),
        s.start_time = some startTime → s.total_paused_duration_seconds = 0 →
        |1000 * netElapsedSeconds (runPauseResume s prs) t -
            startedIntervalMs startTime prs t| ≤ 999 + 500 * prs.length) := by
  constructor
  · intro s pausedAt selectedTestId tests duration now hst hlp
    simp [handleControlAction, hst, hlp]
  · intro s startTime prs t hstart htot
    rcases runPauseResume_proj prs s with ⟨h1, h2⟩
    rw [hstart] at h1
    rw [htot, Int.zero_add] at h2
    simp only [netElapsedSeconds, h1, h2, startedIntervalMs]
    have hG := fdiv1000_bounds (t - startTime)
    have hS := sum_round_bounds prs
    rw [abs_le]
    constructor <;> omega

/-- C8 amended witness: the Resume write from the concrete paused state,
and the bound for a single 1.5 s pause. -/
theorem c8_resume_accumulator_bound_witness :
    (handleControlAction pausedAt10 .started none demoTests 1 40000 =
      .updated { pausedAt10 with
        status := .started
        total_paused_duration_seconds := pausedAt10.total_paused_duration_seconds +
          Int.fdiv ((40000 : Int) - 10000 + 500) 1000
        last_paused_at := none }) ∧
    |1000 * netElapsedSeconds (runPauseResume startedAt0 [(10000, 11500)]) 11500 -
        startedIntervalMs 0 [(10000, 11500)] 11500| ≤
      999 + 500 * ([((10000 : Int), (11500 : Int))].length : Int) :=
  ⟨c8_resume_accumulator_bound.1 pausedAt10 10000 none demoTests 1 40000
      (by decide) (by decide),
   c8_resume_accumulator_bound.2 startedAt0 0 [(10000, 11500)] 11500
      (by decide) (by decide)⟩
